import Mathlib

/-!
Verification development for a WhatsApp-group HTTP relay server.

The definitions below are a shallow embedding of `src/index.js`:

* `dispatch` models the `POST /send-group-message` Express handler
  (authorization check, request validation, readiness check with the
  fire-and-forget restart trigger, and the bounded send-retry loop with
  its browser-error classification).
* `step` models the session lifecycle state machine: the client event
  handlers (`qr`, `ready`, `disconnected`, `auth_failure`), the
  synchronous prefix of `restartWhatsAppClient`, the deferred restart
  callbacks scheduled through `setTimeout`, and the manual `/restart`
  endpoint.

Machine integers do not occur (all counters are small naturals), and the
only effectful operations (HTTP responses, console diagnostics, restart
scheduling) are reified as explicit fields of the result records.
-/

namespace WaServer

/-- `MAX_RESTART_ATTEMPTS` from `src/index.js` line 21. -/
def MAX_RESTART_ATTEMPTS : Nat := 3

/-- `MAX_SEND_RETRIES` from `src/index.js` line 291. -/
def MAX_SEND_RETRIES : Nat := 2

/-- JavaScript truthiness of an optional string field: `undefined` and the
empty string are falsy, every other string is truthy. -/
def truthy : Option String → Bool
  | none => false
  | some s => s != ""

/-- A chat as returned by `client.getChats()`: the fields the handler
reads are `isGroup`, `name` and `id._serialized`. -/
structure Chat where
  isGroup : Bool
  name : String
  idSerialized : String
deriving DecidableEq, Repr

/-- The JSON body of `POST /send-group-message`: `{groupName?, groupId?, message}`. -/
structure SendReq where
  groupName : Option String
  groupId : Option String
  message : Option String
deriving DecidableEq, Repr

/-- The distinct response bodies the handler can produce, with the fields
the specification talks about. -/
inductive RespBody where
  | unauthorized
  | badRequest
  | notReady (isRestarting : Bool) (restartAttempts : Nat)
  | notFound
  | success (groupId : String) (groupName : String) (attempts : Nat)
  | sessionLost (willRetry : Bool)
  | sendFailed (attempts : Nat)
deriving DecidableEq, Repr

/-- An HTTP response: status code plus body shape. -/
structure HttpResponse where
  status : Nat
  body : RespBody
deriving DecidableEq, Repr

/-- The process-wide mutable state read and written by the handler:
`whatsappReady`, `isRestarting`, `restartAttempts` (`src/index.js`
lines 16-20). -/
structure SrvState where
  whatsappReady : Bool
  isRestarting : Bool
  restartAttempts : Nat
deriving DecidableEq, Repr

/-- Outcome oracle for the automation client: for each (1-based) attempt
number, the result of `client.getChats()` and of `client.sendMessage`;
`Except.error msg` models a thrown error whose `.message` is `msg`. -/
structure ClientOracle where
  getChatsAt : Nat → Except String (List Chat)
  sendAt : Nat → Except String Unit

/-- Auxiliary: does `pat` occur as a contiguous sublist of `s`? -/
def containsAux (pat : List Char) : List Char → Bool
  | [] => pat.isPrefixOf []
  | c :: rest => pat.isPrefixOf (c :: rest) || containsAux pat rest

/-- Substring test used to classify thrown errors (JavaScript
`String.prototype.includes`). -/
def strContains (s pat : String) : Bool := containsAux pat.toList s.toList

/-- The browser/session-closed error classification of `src/index.js`
lines 352-354. -/
def isBrowserError (msg : String) : Bool :=
  strContains msg "Session closed" || strContains msg "Protocol error" ||
    strContains msg "Target closed"

/-- The authorization-failure condition of `src/index.js` line 254:
`AUTH_TOKEN && req.headers.authorization !== Bearer AUTH_TOKEN`. -/
def authFails (tok hdr : Option String) : Bool :=
  truthy tok && !(hdr == some ("Bearer " ++ tok.getD ""))

/-- The request-validation success condition of `src/index.js` line 261:
the request is rejected iff `(!groupName && !groupId) || !message`. -/
def validOk (req : SendReq) : Bool :=
  !((!truthy req.groupName && !truthy req.groupId) || !truthy req.message)

/-- Accumulated observable behaviour of one `POST /send-group-message`
call: the response written (if any), the state after the synchronous part
of the call, and the reified side effects (restart invoked inline,
deferred restarts scheduled with `setTimeout`, client calls made, retry
waits, and the diagnostic listing of available groups logged on a failed
name lookup). -/
structure DispatchOut where
  resp : Option HttpResponse
  state : SrvState
  restartInvoked : Bool
  restartScheduled : Nat
  getChatsCalls : Nat
  sendCalls : Nat
  sendTargets : List String
  waits : Nat
  loggedGroups : Option (List String)
deriving Repr

/-- Result of the `try` block of one loop iteration before the `catch`:
either a response was produced or an error was thrown. -/
inductive AttemptRes where
  | respond (r : HttpResponse) (logged : Option (List String))
  | threw (msg : String)
deriving Repr

/-- Client interaction of the `try` block of one iteration together with
the calls it made (`src/index.js` lines 297-340). -/
structure AttemptStep where
  res : AttemptRes
  getChats : Nat
  sends : Nat
  targets : List String
deriving Repr

/-- One iteration's `try` block: direct `groupId` path, or the
`groupName` path that fetches the chat list, searches for an exact
group-name match and 404s (logging the available group names) when none
matches. -/
def runAttempt (o : ClientOracle) (groupName groupId : Option String)
    (a : Nat) : AttemptStep :=
  if truthy groupId then
    let targetGroupId := groupId.getD ""
    let targetGroupName := if truthy groupName then groupName.getD "" else "Unknown"
    match o.sendAt a with
    | .ok _ =>
        { res := .respond ⟨200, .success targetGroupId targetGroupName a⟩ none,
          getChats := 0, sends := 1, targets := [targetGroupId] }
    | .error e => { res := .threw e, getChats := 0, sends := 1, targets := [targetGroupId] }
  else
    match o.getChatsAt a with
    | .error e => { res := .threw e, getChats := 1, sends := 0, targets := [] }
    | .ok chats =>
        match chats.find? (fun c => c.isGroup && c.name == groupName.getD "") with
        | none =>
            { res := .respond ⟨404, .notFound⟩
                (some ((chats.filter (fun c => c.isGroup)).map (fun c => c.name))),
              getChats := 1, sends := 0, targets := [] }
        | some g =>
            match o.sendAt a with
            | .ok _ =>
                { res := .respond ⟨200, .success g.idSerialized g.name a⟩ none,
                  getChats := 1, sends := 1, targets := [g.idSerialized] }
            | .error e =>
                { res := .threw e, getChats := 1, sends := 1, targets := [g.idSerialized] }

/-- Record the client calls a `try` block made into the accumulator. -/
def accAdd (acc : DispatchOut) (stp : AttemptStep) : DispatchOut :=
  { acc with
    getChatsCalls := acc.getChatsCalls + stp.getChats,
    sendCalls := acc.sendCalls + stp.sends,
    sendTargets := acc.sendTargets ++ stp.targets }

/-- The session-fatal `catch` effects (`src/index.js` lines 356-364):
`whatsappReady = false`, plus one deferred restart scheduled when the
auto-restart guard holds for the entry-time globals `st`. -/
def accBrowser (acc : DispatchOut) (st : SrvState) : DispatchOut :=
  { acc with
    state := { acc.state with whatsappReady := false },
    restartScheduled := acc.restartScheduled +
      (if !st.isRestarting && decide (st.restartAttempts < MAX_RESTART_ATTEMPTS)
       then 1 else 0) }

/-- The fixed 1-time-unit wait before a transient retry
(`src/index.js` line 393). -/
def accWait (acc : DispatchOut) : DispatchOut :=
  { acc with waits := acc.waits + 1 }

/-- The `while (sendAttempts < MAX_SEND_RETRIES)` retry loop of
`src/index.js` lines 294-395, with `st` the values of the process globals
at entry.  A `resp := none` result models the handler function ending
without having sent any response (the `break` at line 378 followed by
falling off the end of the loop). -/
def sendLoop (o : ClientOracle) (groupName groupId : Option String)
    (st : SrvState) (fuel : Nat) (sendAttempts : Nat)
    (acc : DispatchOut) : DispatchOut :=
  match fuel with
  | 0 => acc
  | fuel + 1 =>
    if sendAttempts < MAX_SEND_RETRIES then
      let a := sendAttempts + 1
      let stp := runAttempt o groupName groupId a
      let acc := accAdd acc stp
      match stp.res with
      | .respond r logged => { acc with resp := some r, loggedGroups := logged }
      | .threw e =>
        if isBrowserError e then
          let acc := accBrowser acc st
          if MAX_SEND_RETRIES ≤ a ∨ a = 1 then
            { acc with resp := some ⟨503,
                .sessionLost (decide (st.restartAttempts < MAX_RESTART_ATTEMPTS))⟩ }
          else
            acc
        else
          if MAX_SEND_RETRIES ≤ a then
            { acc with resp := some ⟨500, .sendFailed a⟩ }
          else
            sendLoop o groupName groupId st fuel a (accWait acc)
    else acc

@[simp]
theorem accAdd_resp (acc : DispatchOut) (stp : AttemptStep) :
    (accAdd acc stp).resp = acc.resp := rfl

@[simp]
theorem accAdd_state (acc : DispatchOut) (stp : AttemptStep) :
    (accAdd acc stp).state = acc.state := rfl

@[simp]
theorem accAdd_getChatsCalls (acc : DispatchOut) (stp : AttemptStep) :
    (accAdd acc stp).getChatsCalls = acc.getChatsCalls + stp.getChats := rfl

@[simp]
theorem accAdd_sendCalls (acc : DispatchOut) (stp : AttemptStep) :
    (accAdd acc stp).sendCalls = acc.sendCalls + stp.sends := rfl

@[simp]
theorem accAdd_sendTargets (acc : DispatchOut) (stp : AttemptStep) :
    (accAdd acc stp).sendTargets = acc.sendTargets ++ stp.targets := rfl

@[simp]
theorem accAdd_waits (acc : DispatchOut) (stp : AttemptStep) :
    (accAdd acc stp).waits = acc.waits := rfl

@[simp]
theorem accAdd_restartScheduled (acc : DispatchOut) (stp : AttemptStep) :
    (accAdd acc stp).restartScheduled = acc.restartScheduled := rfl

@[simp]
theorem accAdd_restartInvoked (acc : DispatchOut) (stp : AttemptStep) :
    (accAdd acc stp).restartInvoked = acc.restartInvoked := rfl

@[simp]
theorem accAdd_loggedGroups (acc : DispatchOut) (stp : AttemptStep) :
    (accAdd acc stp).loggedGroups = acc.loggedGroups := rfl

@[simp]
theorem accWait_resp (acc : DispatchOut) : (accWait acc).resp = acc.resp := rfl

@[simp]
theorem accWait_state (acc : DispatchOut) : (accWait acc).state = acc.state := rfl

@[simp]
theorem accWait_getChatsCalls (acc : DispatchOut) :
    (accWait acc).getChatsCalls = acc.getChatsCalls := rfl

@[simp]
theorem accWait_sendCalls (acc : DispatchOut) :
    (accWait acc).sendCalls = acc.sendCalls := rfl

@[simp]
theorem accWait_sendTargets (acc : DispatchOut) :
    (accWait acc).sendTargets = acc.sendTargets := rfl

@[simp]
theorem accWait_waits (acc : DispatchOut) : (accWait acc).waits = acc.waits + 1 := rfl

@[simp]
theorem accWait_restartScheduled (acc : DispatchOut) :
    (accWait acc).restartScheduled = acc.restartScheduled := rfl

@[simp]
theorem accWait_restartInvoked (acc : DispatchOut) :
    (accWait acc).restartInvoked = acc.restartInvoked := rfl

@[simp]
theorem accWait_loggedGroups (acc : DispatchOut) :
    (accWait acc).loggedGroups = acc.loggedGroups := rfl

@[simp]
theorem accBrowser_resp (acc : DispatchOut) (st : SrvState) :
    (accBrowser acc st).resp = acc.resp := rfl

@[simp]
theorem accBrowser_getChatsCalls (acc : DispatchOut) (st : SrvState) :
    (accBrowser acc st).getChatsCalls = acc.getChatsCalls := rfl

@[simp]
theorem accBrowser_sendCalls (acc : DispatchOut) (st : SrvState) :
    (accBrowser acc st).sendCalls = acc.sendCalls := rfl

@[simp]
theorem accBrowser_sendTargets (acc : DispatchOut) (st : SrvState) :
    (accBrowser acc st).sendTargets = acc.sendTargets := rfl

@[simp]
theorem accBrowser_waits (acc : DispatchOut) (st : SrvState) :
    (accBrowser acc st).waits = acc.waits := rfl

@[simp]
theorem accBrowser_loggedGroups (acc : DispatchOut) (st : SrvState) :
    (accBrowser acc st).loggedGroups = acc.loggedGroups := rfl

@[simp]
theorem accBrowser_whatsappReady (acc : DispatchOut) (st : SrvState) :
    (accBrowser acc st).state.whatsappReady = false := rfl

@[simp]
theorem accBrowser_restartScheduled (acc : DispatchOut) (st : SrvState) :
    (accBrowser acc st).restartScheduled = acc.restartScheduled +
      (if !st.isRestarting && decide (st.restartAttempts < MAX_RESTART_ATTEMPTS)
       then 1 else 0) := rfl

/-- The whole `POST /send-group-message` handler (`src/index.js`
lines 243-396): authorization, validation, the not-ready branch — which
fire-and-forgets `restartWhatsAppClient()` whose synchronous prefix sets
`isRestarting` and increments `restartAttempts` before the response body
is built — and the retry loop. -/
def dispatch (tok hdr : Option String) (o : ClientOracle) (req : SendReq)
    (st : SrvState) : DispatchOut :=
  let base : DispatchOut :=
    { resp := none, state := st, restartInvoked := false, restartScheduled := 0,
      getChatsCalls := 0, sendCalls := 0, sendTargets := [], waits := 0,
      loggedGroups := none }
  if authFails tok hdr then
    { base with resp := some ⟨403, .unauthorized⟩ }
  else if !validOk req then
    { base with resp := some ⟨400, .badRequest⟩ }
  else if !st.whatsappReady then
    let doRestart := !st.isRestarting && decide (st.restartAttempts < MAX_RESTART_ATTEMPTS)
    let st' := if doRestart
      then { st with isRestarting := true, restartAttempts := st.restartAttempts + 1 }
      else st
    { base with
      state := st', restartInvoked := doRestart,
      resp := some ⟨503, .notReady st'.isRestarting st'.restartAttempts⟩ }
  else
    sendLoop o req.groupName req.groupId st MAX_SEND_RETRIES 0 base

/-! ## Session lifecycle state machine

Events are the run-to-completion segments of the node event loop that
touch the restart state: the client lifecycle callbacks, the synchronous
prefix of `restartWhatsAppClient` (which checks and sets `isRestarting`
and increments `restartAttempts` before its first `await`), the firing
of a restart callback scheduled through `setTimeout`, the completion of
an in-flight restart body (its `finally` clears the flag), and the
manual `/restart` endpoint. -/

/-- Lifecycle-level system state.  Beyond the three process globals it
records whether a pairing-artifact path is stored (`qrPath`), whether
the artifact file exists on disk (`qrFile`), how many deferred restart
callbacks are scheduled but have not run (`pending`), how many restart
bodies are in flight (`active`), and how many client handles have been
constructed (`clients`). -/
structure SysState where
  ready : Bool
  restarting : Bool
  restartAttempts : Nat
  qrPath : Bool
  qrFile : Bool
  pending : Nat
  active : Nat
  clients : Nat
deriving DecidableEq, Repr

/-- Process start state: globals initialised at `src/index.js`
lines 16-20, one client constructed at line 207. -/
def initState : SysState :=
  { ready := false, restarting := false, restartAttempts := 0,
    qrPath := false, qrFile := false, pending := 0, active := 0, clients := 1 }

/-- Synchronous prefix of `restartWhatsAppClient` (`src/index.js`
lines 173-180): return immediately if `isRestarting` is set, else set the
flag and increment `restartAttempts` before the first `await`. -/
def restartBegin (s : SysState) : SysState :=
  if s.restarting then s
  else { s with
    restarting := true,
    restartAttempts := s.restartAttempts + 1,
    active := s.active + 1 }

/-- Guard used by every automatic restart trigger
(`!isRestarting && restartAttempts < MAX_RESTART_ATTEMPTS`). -/
def autoGuard (s : SysState) : Bool :=
  !s.restarting && decide (s.restartAttempts < MAX_RESTART_ATTEMPTS)

/-- The lifecycle events.  The `qr` event carries whether the artifact
write succeeded, since `qrcode.toFile` failures are caught and only
logged. -/
inductive Ev where
  | qr (ok : Bool)
  | ready
  | disconnected
  | authFailure
  | dispatchTrigger
  | browserErr
  | timerFire
  | restartFinish (ok : Bool)
  | manualRestart
deriving DecidableEq, Repr

/-- One lifecycle step.
* `qr ok`: handler at lines 129-137: the artifact path is stored first,
  then the file is written; when the write throws, the error is caught
  and logged, leaving the path stored with the on-disk state unchanged.
* `ready`: handler at lines 139-149.
* `disconnected`: handler at lines 151-161: not-ready, path discarded
  (file left in place), and a restart scheduled via `setTimeout` when the
  auto guard holds.
* `authFailure`: handler at lines 164-167.
* `dispatchTrigger`: the not-ready branch of the send handler
  (lines 273-287) invoking `restartWhatsAppClient()` inline when the
  auto guard holds.
* `browserErr`: the session-fatal branch of the send loop
  (lines 356-364): not-ready, restart scheduled via `setTimeout` when
  the guard holds.
* `timerFire`: one scheduled callback runs `restartWhatsAppClient()`.
* `restartFinish ok`: an in-flight restart body completes; its `finally`
  clears `isRestarting`; on success a replacement client was constructed.
* `manualRestart`: `POST /restart` (lines 399-413): no-op if already
  restarting, else reset `restartAttempts` to 0 and invoke the restart. -/
def step (s : SysState) (e : Ev) : SysState :=
  match e with
  | .qr ok =>
      let s := { s with qrPath := true }
      if ok then { s with qrFile := true } else s
  | .ready =>
      let s := { s with ready := true, restartAttempts := 0 }
      if s.qrPath && s.qrFile then { s with qrFile := false, qrPath := false } else s
  | .disconnected =>
      let s := { s with ready := false, qrPath := false }
      if autoGuard s then { s with pending := s.pending + 1 } else s
  | .authFailure => { s with ready := false }
  | .dispatchTrigger =>
      if !s.ready && autoGuard s then restartBegin s else s
  | .browserErr =>
      let s := { s with ready := false }
      if autoGuard s then { s with pending := s.pending + 1 } else s
  | .timerFire =>
      if 0 < s.pending then restartBegin { s with pending := s.pending - 1 } else s
  | .restartFinish ok =>
      if s.restarting then
        { s with
          restarting := false,
          active := s.active - 1,
          clients := if ok then s.clients + 1 else s.clients }
      else s
  | .manualRestart =>
      if s.restarting then s
      else restartBegin { s with restartAttempts := 0 }

/-- Run a trace of events. -/
def runTrace (s : SysState) (tr : List Ev) : SysState := tr.foldl step s

/-- Reachable states of the lifecycle machine. -/
inductive Reach : SysState → Prop where
  | init : Reach initState
  | next : ∀ {s} (e : Ev), Reach s → Reach (step s e)

/-- Prompt-scheduling semantics: identical to `step` except that the two
`setTimeout`-deferred triggers run `restartWhatsAppClient` immediately
instead of leaving a callback pending. -/
def stepPrompt (s : SysState) (e : Ev) : SysState :=
  match e with
  | .disconnected =>
      let s := { s with ready := false, qrPath := false }
      if autoGuard s then restartBegin s else s
  | .browserErr =>
      let s := { s with ready := false }
      if autoGuard s then restartBegin s else s
  | _ => step s e

/-- States reachable under prompt scheduling. -/
inductive ReachPrompt : SysState → Prop where
  | init : ReachPrompt initState
  | next : ∀ {s} (e : Ev), ReachPrompt s → ReachPrompt (stepPrompt s e)

/-- The manual `/restart` endpoint's possible responses. -/
inductive RestartResp where
  | unauthorized
  | alreadyInProgress
  | initiated
deriving DecidableEq, Repr

/-- The `POST /restart` handler (`src/index.js` lines 399-413): auth
check, "already in progress" short-circuit, else reset the counter and
invoke `restartWhatsAppClient` (whose synchronous prefix we observe). -/
def restartEndpoint (tok hdr : Option String) (s : SysState) :
    SysState × RestartResp :=
  if authFails tok hdr then (s, .unauthorized)
  else if s.restarting then (s, .alreadyInProgress)
  else (restartBegin { s with restartAttempts := 0 }, .initiated)

/-- The restart-relevant projection of a lifecycle state. -/
def restartObs (s : SysState) : Bool × Nat × Nat × Nat :=
  (s.restarting, s.restartAttempts, s.pending, s.active)

/-! ### Lifecycle invariants -/

/-- Running a trace from a reachable state stays reachable. -/
theorem reach_runTrace {s : SysState} (tr : List Ev) (h : Reach s) :
    Reach (runTrace s tr) := by
  induction tr generalizing s with
  | nil => exact h
  | cons e tr ih => exact ih (Reach.next e h)

/-- The number of in-flight restart bodies is `1` when `isRestarting`
is set and `0` otherwise. -/
theorem active_inv : ∀ {s}, Reach s → s.active = (if s.restarting then 1 else 0) := by
  intro s h
  induction h with
  | init => simp [initState]
  | next e _ ih =>
    cases e <;>
      simp only [step, restartBegin, autoGuard] <;>
      (try split_ifs) <;> simp_all

/-- Under prompt scheduling no callback is ever left pending and the
attempt counter is bounded by `MAX_RESTART_ATTEMPTS`. -/
theorem prompt_inv :
    ∀ {s}, ReachPrompt s → s.pending = 0 ∧ s.restartAttempts ≤ MAX_RESTART_ATTEMPTS := by
  intro s h
  induction h with
  | init => simp [initState, MAX_RESTART_ATTEMPTS]
  | next e _ ih =>
    cases e <;>
      simp only [stepPrompt, step, restartBegin, autoGuard, MAX_RESTART_ATTEMPTS] at * <;>
      (try split_ifs) <;> simp_all <;> omega

/-- The trace refuting the global attempt bound: four session-fatal send
errors observed while no restart is in flight each schedule a deferred
restart; the four callbacks then run one after another, each completing
(unsuccessfully) before the next fires. -/
def cexTrace : List Ev :=
  [.ready, .browserErr, .browserErr, .browserErr, .browserErr,
   .timerFire, .restartFinish false, .timerFire, .restartFinish false,
   .timerFire, .restartFinish false, .timerFire]

example : (runTrace initState cexTrace).restartAttempts = 4 := by decide

example : isBrowserError "Session closed. Most likely the page has been closed." = true := by decide

example : isBrowserError "some random network hiccup" = false := by decide

example :
    (dispatch none none ⟨fun _ => .ok [], fun _ => .ok ()⟩
      ⟨none, some "X@g.us", some "hi"⟩ ⟨true, false, 0⟩).resp =
      some ⟨200, .success "X@g.us" "Unknown" 1⟩ := by decide

example (o : ClientOracle) (gn gid : Option String) (st : SrvState) (acc : DispatchOut) :
    sendLoop o gn gid st 2 2 acc = acc := by
  simp [sendLoop, MAX_SEND_RETRIES]

/-! ## Helper lemmas about the send loop -/

/-- The terminal outcomes of the dispatch contract: success, `NotReady`,
`NotFound`, `SessionLost` or `SendFailed`. -/
def isTerminal : RespBody → Bool
  | .notReady _ _ => true
  | .notFound => true
  | .success _ _ _ => true
  | .sessionLost _ => true
  | .sendFailed _ => true
  | _ => false

/-- Any response produced inside the `try` block is a success or a
`NotFound`. -/
theorem runAttempt_respond_terminal (o : ClientOracle) (gn gid : Option String)
    (a : Nat) (r : HttpResponse) (logged : Option (List String))
    (h : (runAttempt o gn gid a).res = .respond r logged) :
    isTerminal r.body = true := by
  unfold runAttempt at h
  repeat' split at h
  all_goals simp at h
  all_goals (rcases h with ⟨h1, h2⟩; subst h1; simp [isTerminal])

/-- As long as enough fuel remains to cover the remaining iterations,
the retry loop always responds, with a terminal body. -/
theorem sendLoop_total (o : ClientOracle) (gn gid : Option String)
    (st : SrvState) :
    ∀ (fuel sendAttempts : Nat) (acc : DispatchOut),
      MAX_SEND_RETRIES ≤ sendAttempts + fuel → sendAttempts < MAX_SEND_RETRIES →
      ∃ r, (sendLoop o gn gid st fuel sendAttempts acc).resp = some r ∧
        isTerminal r.body = true := by
  intro fuel
  induction fuel with
  | zero =>
      intro a acc hfuel ha
      exact absurd hfuel (by omega)
  | succ fuel ih =>
    intro a acc hfuel ha
    simp only [sendLoop, if_pos ha]
    cases hres : (runAttempt o gn gid (a + 1)).res with
    | respond r logged =>
        exact ⟨r, by simp [hres], runAttempt_respond_terminal o gn gid (a + 1) r logged hres⟩
    | threw e =>
        by_cases hbe : isBrowserError e = true
        · have hcond : MAX_SEND_RETRIES ≤ a + 1 ∨ a = 0 := by
            simp only [MAX_SEND_RETRIES] at *
            omega
          refine ⟨⟨503, .sessionLost (decide (st.restartAttempts < MAX_RESTART_ATTEMPTS))⟩, ?_, rfl⟩
          simp [hres, hbe, hcond]
        · by_cases hlast : MAX_SEND_RETRIES ≤ a + 1
          · refine ⟨⟨500, .sendFailed (a + 1)⟩, ?_, rfl⟩
            simp [hres, hbe, hlast]
          · have hrec := ih (a + 1)
              (accWait (accAdd acc (runAttempt o gn gid (a + 1))))
              (by omega) (by omega)
            simpa [hres, hbe, hlast] using hrec

/-- Each `try` block performs at most one chat fetch and one send. -/
theorem runAttempt_calls_le (o : ClientOracle) (gn gid : Option String) (a : Nat) :
    (runAttempt o gn gid a).getChats ≤ 1 ∧ (runAttempt o gn gid a).sends ≤ 1 := by
  unfold runAttempt
  repeat' split
  all_goals simp

/-- The loop makes at most `fuel` chat fetches and `fuel` sends beyond
what is already accumulated. -/
theorem sendLoop_calls_le (o : ClientOracle) (gn gid : Option String)
    (st : SrvState) :
    ∀ (fuel sendAttempts : Nat) (acc : DispatchOut),
      (sendLoop o gn gid st fuel sendAttempts acc).sendCalls ≤ acc.sendCalls + fuel ∧
      (sendLoop o gn gid st fuel sendAttempts acc).getChatsCalls ≤ acc.getChatsCalls + fuel := by
  intro fuel
  induction fuel with
  | zero => intro a acc; simp [sendLoop]
  | succ fuel ih =>
    intro a acc
    have hra := runAttempt_calls_le o gn gid (a + 1)
    simp only [sendLoop]
    split
    · cases hres : (runAttempt o gn gid (a + 1)).res with
      | respond r logged => simp [hres]; omega
      | threw e =>
          by_cases hbe : isBrowserError e = true
          · by_cases hc : MAX_SEND_RETRIES ≤ a + 1 ∨ a = 0 <;>
              · simp [hres, hbe, hc]
                omega
          · by_cases hlast : MAX_SEND_RETRIES ≤ a + 1
            · simp [hres, hbe, hlast]; omega
            · have hrec := ih (a + 1)
                (accWait (accAdd acc (runAttempt o gn gid (a + 1))))
              simp only [accWait_sendCalls, accWait_getChatsCalls, accAdd_sendCalls,
                accAdd_getChatsCalls] at hrec
              simp [hres, hbe, hlast]
              omega
    · simp

/-- With `groupId` present the loop never fetches chats, only ever sends
to the given id, and any success it reports carries the given id and the
supplied (or defaulted) name. -/
theorem sendLoop_gid (o : ClientOracle) (gn gid : Option String)
    (st : SrvState) (hgid : truthy gid = true) :
    ∀ (fuel sendAttempts : Nat) (acc : DispatchOut),
      (sendLoop o gn gid st fuel sendAttempts acc).getChatsCalls = acc.getChatsCalls ∧
      (∀ t, t ∈ (sendLoop o gn gid st fuel sendAttempts acc).sendTargets →
        t ∈ acc.sendTargets ∨ t = gid.getD "") ∧
      (∀ g n k, (sendLoop o gn gid st fuel sendAttempts acc).resp =
          some ⟨200, .success g n k⟩ →
        acc.resp = some ⟨200, .success g n k⟩ ∨
          (g = gid.getD "" ∧ n = (if truthy gn then gn.getD "" else "Unknown"))) := by
  intro fuel
  induction fuel with
  | zero =>
      intro a acc
      exact ⟨rfl, fun t ht => Or.inl ht, fun g n k hk => Or.inl hk⟩
  | succ fuel ih =>
    intro a acc
    simp only [sendLoop]
    split
    · cases hsend : o.sendAt (a + 1) with
      | ok u =>
          have hstep : runAttempt o gn gid (a + 1) =
              { res := .respond ⟨200, .success (gid.getD "")
                  (if truthy gn then gn.getD "" else "Unknown") (a + 1)⟩ none,
                getChats := 0, sends := 1, targets := [gid.getD ""] } := by
            simp [runAttempt, hgid, hsend]
          refine ⟨by simp [hstep], ?_, ?_⟩
          · intro t ht
            simp [hstep] at ht
            rcases ht with h | h
            · exact Or.inl h
            · exact Or.inr h
          · intro g n k hk
            simp [hstep] at hk
            exact Or.inr ⟨hk.1.symm, hk.2.1.symm⟩
      | error e =>
          have hstep : runAttempt o gn gid (a + 1) =
              { res := .threw e, getChats := 0, sends := 1,
                targets := [gid.getD ""] } := by
            simp [runAttempt, hgid, hsend]
          by_cases hbe : isBrowserError e = true
          · by_cases hlast : MAX_SEND_RETRIES ≤ a + 1 ∨ a = 0
            · refine ⟨by simp [hstep, hbe, hlast], ?_, ?_⟩
              · intro t ht
                simp [hstep, hbe, hlast] at ht
                rcases ht with h | h
                · exact Or.inl h
                · exact Or.inr h
              · intro g n k hk
                simp [hstep, hbe, hlast] at hk
            · refine ⟨by simp [hstep, hbe, hlast], ?_, ?_⟩
              · intro t ht
                simp [hstep, hbe, hlast] at ht
                rcases ht with h | h
                · exact Or.inl h
                · exact Or.inr h
              · intro g n k hk
                simp [hstep, hbe, hlast] at hk
                exact Or.inl hk
          · by_cases hlast : MAX_SEND_RETRIES ≤ a + 1
            · refine ⟨by simp [hstep, hbe, hlast], ?_, ?_⟩
              · intro t ht
                simp [hstep, hbe, hlast] at ht
                rcases ht with h | h
                · exact Or.inl h
                · exact Or.inr h
              · intro g n k hk
                simp [hstep, hbe, hlast] at hk
            · have hrec := ih (a + 1)
                (accWait (accAdd acc (runAttempt o gn gid (a + 1))))
              refine ⟨?_, ?_, ?_⟩
              · simpa [hstep, hbe, hlast] using hrec.1
              · intro t ht
                simp only [hstep, hbe, hlast, if_neg, Bool.false_eq_true,
                  if_false] at ht
                have ht2 : t ∈ (sendLoop o gn gid st fuel (a + 1)
                    (accWait (accAdd acc (runAttempt o gn gid (a + 1))))).sendTargets := by
                  simpa [hstep, hbe, hlast] using ht
                rcases hrec.2.1 t ht2 with h | h
                · simp [hstep] at h
                  rcases h with h | h
                  · exact Or.inl h
                  · exact Or.inr h
                · exact Or.inr h
              · intro g n k hk
                have hk2 : (sendLoop o gn gid st fuel (a + 1)
                    (accWait (accAdd acc (runAttempt o gn gid (a + 1))))).resp =
                    some ⟨200, .success g n k⟩ := by
                  simpa [hstep, hbe, hlast] using hk
                rcases hrec.2.2 g n k hk2 with h | h
                · exact Or.inl (by simpa using h)
                · exact Or.inr h
    · exact ⟨rfl, fun t ht => Or.inl ht, fun g n k hk => Or.inl hk⟩

/-! ## Concrete fixtures used by the witnesses -/

/-- Oracle whose chat list has one group named Team and one contact. -/
def oracleC1 : ClientOracle :=
  ⟨fun _ => .ok [⟨true, "Team", "111@g.us"⟩, ⟨false, "Bob", "222@c.us"⟩],
   fun _ => .ok ()⟩

/-- Oracle like `oracleC1` but with a different set of group chats. -/
def oracleC1B : ClientOracle :=
  ⟨fun _ => .ok [⟨true, "Crew", "333@g.us"⟩, ⟨true, "Squad", "444@g.us"⟩],
   fun _ => .ok ()⟩

/-- Oracle for which every client call succeeds. -/
def oracleOk : ClientOracle := ⟨fun _ => .ok [], fun _ => .ok ()⟩

/-- Oracle whose sends always die with a session-closed error. -/
def oracleFatal : ClientOracle := ⟨fun _ => .ok [], fun _ => .error "Session closed."⟩

/-- Oracle whose first send fails transiently and whose second succeeds. -/
def oracleFlaky : ClientOracle :=
  ⟨fun _ => .ok [], fun a => if a = 1 then .error "ECONNRESET" else .ok ()⟩

/-- Oracle whose sends always fail transiently. -/
def oracleDown : ClientOracle := ⟨fun _ => .ok [], fun _ => .error "ECONNRESET"⟩

/-- Request addressing a group by id. -/
def reqById : SendReq := ⟨none, some "X@g.us", some "hi"⟩

/-- Request addressing a group by display name. -/
def reqByName : SendReq := ⟨some "Family", none, some "hi"⟩

/-- Globals of a ready session. -/
def stReady : SrvState := ⟨true, false, 0⟩

/-- Globals of a dead session with the attempt budget exhausted. -/
def stDown3 : SrvState := ⟨false, false, 3⟩

/-- Globals of a dead session with no restart attempts made yet. -/
def stDown0 : SrvState := ⟨false, false, 0⟩

/-- Lifecycle state whose attempt counter sits at the maximum. -/
def exhaustedState : SysState := { initState with restartAttempts := 3 }

/-- Lifecycle state with a restart in flight. -/
def inflightState : SysState :=
  { initState with restarting := true, active := 1 }

/-! ## Claims -/

/-- C1 (amended): for every SendRequest carrying only a target name
matching no group chat (exact, case-sensitive comparison against group
display names), dispatch returns the NotFound outcome — an HTTP 404
whose body is the bare error string and carries no enumeration — while
the display names of all available group chats are enumerated in the
logged failure diagnostic. -/
theorem claim_C1 (tok hdr : Option String) (o : ClientOracle) (req : SendReq)
    (st : SrvState) (chats : List Chat)
    (hauth : authFails tok hdr = false)
    (hgn : truthy req.groupName = true)
    (hgid : truthy req.groupId = false)
    (hmsg : truthy req.message = true)
    (hready : st.whatsappReady = true)
    (hchats : o.getChatsAt 1 = .ok chats)
    (hnomatch : ∀ c ∈ chats, c.isGroup = true → c.name ≠ req.groupName.getD "") :
    (dispatch tok hdr o req st).resp = some ⟨404, .notFound⟩ ∧
    (dispatch tok hdr o req st).loggedGroups =
      some ((chats.filter (fun c => c.isGroup)).map (fun c => c.name)) := by
  have hfind : chats.find? (fun c => c.isGroup && c.name == req.groupName.getD "") = none := by
    rw [List.find?_eq_none]
    intro c hc
    simp only [Bool.and_eq_true, beq_iff_eq, not_and]
    intro hg
    exact hnomatch c hc hg
  have hstep : runAttempt o req.groupName req.groupId 1 =
      { res := .respond ⟨404, .notFound⟩
          (some ((chats.filter (fun c => c.isGroup)).map (fun c => c.name))),
        getChats := 1, sends := 0, targets := [] } := by
    simp [runAttempt, hgid, hchats, hfind]
  simp [dispatch, validOk, sendLoop, hauth, hgn, hgid, hmsg, hready, hstep,
    MAX_SEND_RETRIES]

/-- Counterexample for C1 as stated: two runs over chat lists with
different available groups produce the identical 404 NotFound response,
so the response's failure detail cannot enumerate the available group
names; only the logged diagnostics differ and carry the enumeration. -/
theorem claim_C1_cex :
    (dispatch none none oracleC1 reqByName stReady).resp =
      (dispatch none none oracleC1B reqByName stReady).resp ∧
    (dispatch none none oracleC1 reqByName stReady).resp =
      some ⟨404, .notFound⟩ ∧
    (dispatch none none oracleC1 reqByName stReady).loggedGroups =
      some ["Team"] ∧
    (dispatch none none oracleC1B reqByName stReady).loggedGroups =
      some ["Crew", "Squad"] := by
  exact ⟨rfl, rfl, rfl, rfl⟩

/-- Witness for C1: request for group Family against a chat list whose
only group is Team. -/
theorem claim_C1_witness :
    (dispatch none none oracleC1 reqByName stReady).resp = some ⟨404, .notFound⟩ ∧
    (dispatch none none oracleC1 reqByName stReady).loggedGroups = some ["Team"] := by
  have h := claim_C1 none none oracleC1 reqByName stReady
    [⟨true, "Team", "111@g.us"⟩, ⟨false, "Bob", "222@c.us"⟩]
    (by decide) (by decide) (by decide) (by decide) rfl rfl (by decide)
  exact ⟨h.1, h.2⟩

/-- C2 (amended): every automatic restart trigger checks the attempt
bound at trigger time, so under prompt scheduling (each scheduled
restart runs before further events) the counter never exceeds
MAX_RESTART_ATTEMPTS, and once the counter has reached the maximum the
automatic triggers (disconnect, dispatch-time, session-fatal send error)
leave the restart state untouched; however deferred callbacks scheduled
before the maximum was reached can still run afterwards (see the
counterexample). -/
theorem claim_C2 :
    (∀ s, ReachPrompt s → s.restartAttempts ≤ MAX_RESTART_ATTEMPTS) ∧
    (∀ s, MAX_RESTART_ATTEMPTS ≤ s.restartAttempts →
      restartObs (step s .disconnected) = restartObs s ∧
      restartObs (step s .dispatchTrigger) = restartObs s ∧
      restartObs (step s .browserErr) = restartObs s) := by
  constructor
  · intro s h
    exact (prompt_inv h).2
  · intro s h
    have hdec : decide (s.restartAttempts < MAX_RESTART_ATTEMPTS) = false := by
      simp only [decide_eq_false_iff_not, not_lt]
      exact h
    refine ⟨?_, ?_, ?_⟩ <;>
      simp [step, autoGuard, hdec, restartObs, restartBegin]

/-- Counterexample for C2 as stated: four session-fatal errors observed
below the bound schedule four deferred restarts; run one after another
they drive restartAttempts to 4 > MAX_RESTART_ATTEMPTS with no manual
reset anywhere in the trace. -/
theorem claim_C2_cex :
    Reach (runTrace initState cexTrace) ∧
    Ev.manualRestart ∉ cexTrace ∧
    (runTrace initState cexTrace).restartAttempts = 4 := by
  refine ⟨reach_runTrace cexTrace Reach.init, by decide, by decide⟩

/-- Witness for C2 at the initial state and an exhausted state. -/
theorem claim_C2_witness :
    initState.restartAttempts ≤ MAX_RESTART_ATTEMPTS ∧
    restartObs (step exhaustedState .disconnected) = restartObs exhaustedState := by
  exact ⟨claim_C2.1 initState ReachPrompt.init,
    (claim_C2.2 exhaustedState (by decide)).1⟩

/-- C3: for every authorized, valid request against a ready session —
whichever resolution path it takes — a session-fatal error thrown by the
try block of attempt 1 (or of attempt 2 after a transient attempt 1)
marks the session not ready, schedules exactly one deferred restart when
(and only when) none is in flight and attempts remain, makes no client
call beyond those of the failing attempt, and returns the
SessionLost-shaped 503 whose willRetry reflects the remaining restart
budget. -/
theorem claim_C3 (tok hdr : Option String) (o : ClientOracle) (req : SendReq)
    (st : SrvState) (e1 e2 : String)
    (hauth : authFails tok hdr = false)
    (hvalid : validOk req = true)
    (hready : st.whatsappReady = true) :
    ((runAttempt o req.groupName req.groupId 1).res = .threw e1 →
     isBrowserError e1 = true →
      (dispatch tok hdr o req st).resp = some ⟨503,
        .sessionLost (decide (st.restartAttempts < MAX_RESTART_ATTEMPTS))⟩ ∧
      (dispatch tok hdr o req st).state.whatsappReady = false ∧
      (dispatch tok hdr o req st).sendCalls =
        (runAttempt o req.groupName req.groupId 1).sends ∧
      (dispatch tok hdr o req st).getChatsCalls =
        (runAttempt o req.groupName req.groupId 1).getChats ∧
      (dispatch tok hdr o req st).restartScheduled =
        (if !st.isRestarting && decide (st.restartAttempts < MAX_RESTART_ATTEMPTS)
         then 1 else 0)) ∧
    ((runAttempt o req.groupName req.groupId 1).res = .threw e1 →
     isBrowserError e1 = false →
     (runAttempt o req.groupName req.groupId 2).res = .threw e2 →
     isBrowserError e2 = true →
      (dispatch tok hdr o req st).resp = some ⟨503,
        .sessionLost (decide (st.restartAttempts < MAX_RESTART_ATTEMPTS))⟩ ∧
      (dispatch tok hdr o req st).state.whatsappReady = false ∧
      (dispatch tok hdr o req st).sendCalls =
        (runAttempt o req.groupName req.groupId 1).sends +
          (runAttempt o req.groupName req.groupId 2).sends ∧
      (dispatch tok hdr o req st).getChatsCalls =
        (runAttempt o req.groupName req.groupId 1).getChats +
          (runAttempt o req.groupName req.groupId 2).getChats ∧
      (dispatch tok hdr o req st).restartScheduled =
        (if !st.isRestarting && decide (st.restartAttempts < MAX_RESTART_ATTEMPTS)
         then 1 else 0)) := by
  constructor
  · intro h1 hbe1
    simp [dispatch, sendLoop, hauth, hvalid, hready, h1, hbe1, MAX_SEND_RETRIES]
  · intro h1 hbe1 h2 hbe2
    simp [dispatch, sendLoop, hauth, hvalid, hready, h1, hbe1, h2, hbe2,
      MAX_SEND_RETRIES]

/-- Witness for C3: a ready session whose send dies with a
session-closed error on the first attempt. -/
theorem claim_C3_witness :
    (dispatch none none oracleFatal reqById stReady).resp =
      some ⟨503, .sessionLost true⟩ ∧
    (dispatch none none oracleFatal reqById stReady).state.whatsappReady = false ∧
    (dispatch none none oracleFatal reqById stReady).sendCalls = 1 ∧
    (dispatch none none oracleFatal reqById stReady).restartScheduled = 1 := by
  have h := (claim_C3 none none oracleFatal reqById stReady "Session closed." "x"
    rfl rfl rfl).1 rfl (by decide)
  exact ⟨h.1, h.2.1, h.2.2.1, by simpa using h.2.2.2.2⟩

/-- C4: every dispatch call returns exactly one response, and for
authorized, valid requests that response carries one of the five
terminal outcomes (success, NotReady, NotFound, SessionLost,
SendFailed). -/
theorem claim_C4 :
    (∀ (tok hdr : Option String) (o : ClientOracle) (req : SendReq) (st : SrvState),
      ((dispatch tok hdr o req st).resp).isSome = true) ∧
    (∀ (tok hdr : Option String) (o : ClientOracle) (req : SendReq) (st : SrvState),
      authFails tok hdr = false → validOk req = true →
      ∃ r, (dispatch tok hdr o req st).resp = some r ∧ isTerminal r.body = true) := by
  constructor
  · intro tok hdr o req st
    by_cases h1 : authFails tok hdr = true
    · simp [dispatch, h1]
    · by_cases h2 : validOk req = true
      · by_cases h3 : st.whatsappReady = true
        · obtain ⟨r, hr, _⟩ := sendLoop_total o req.groupName req.groupId st
            MAX_SEND_RETRIES 0
            { resp := none, state := st, restartInvoked := false, restartScheduled := 0,
              getChatsCalls := 0, sendCalls := 0, sendTargets := [], waits := 0,
              loggedGroups := none }
            (by simp [MAX_SEND_RETRIES]) (by simp [MAX_SEND_RETRIES])
          simp [dispatch, h1, h2, h3, hr]
        · simp [dispatch, h1, h2, h3]
      · simp [dispatch, h1, h2]
  · intro tok hdr o req st hauth hvalid
    by_cases h3 : st.whatsappReady = true
    · obtain ⟨r, hr, hterm⟩ := sendLoop_total o req.groupName req.groupId st
        MAX_SEND_RETRIES 0
        { resp := none, state := st, restartInvoked := false, restartScheduled := 0,
          getChatsCalls := 0, sendCalls := 0, sendTargets := [], waits := 0,
          loggedGroups := none }
        (by simp [MAX_SEND_RETRIES]) (by simp [MAX_SEND_RETRIES])
      refine ⟨r, ?_, hterm⟩
      simp [dispatch, hauth, hvalid, h3, hr]
    · by_cases h4 : (!st.isRestarting &&
          decide (st.restartAttempts < MAX_RESTART_ATTEMPTS)) = true
      · exact ⟨⟨503, .notReady true (st.restartAttempts + 1)⟩,
          by simp [dispatch, hauth, hvalid, h3, h4], rfl⟩
      · exact ⟨⟨503, .notReady st.isRestarting st.restartAttempts⟩,
          by simp [dispatch, hauth, hvalid, h3, h4], rfl⟩

/-- Witness for C4 at a concrete ready state and succeeding oracle. -/
theorem claim_C4_witness :
    ((dispatch none none oracleOk reqById stReady).resp).isSome = true ∧
    ∃ r, (dispatch none none oracleOk reqById stReady).resp = some r ∧
      isTerminal r.body = true := by
  exact ⟨claim_C4.1 none none oracleOk reqById stReady,
    claim_C4.2 none none oracleOk reqById stReady rfl rfl⟩

/-- C5 (amended): a dispatch call on a not-ready session responds 503
with the current isRestarting and restartAttempts, performs no send or
chat lookup, and fire-and-forgets a restart exactly when no restart is
in flight AND restart attempts remain below the maximum. -/
theorem claim_C5 (tok hdr : Option String) (o : ClientOracle) (req : SendReq)
    (st : SrvState)
    (hauth : authFails tok hdr = false) (hvalid : validOk req = true)
    (hready : st.whatsappReady = false) :
    (dispatch tok hdr o req st).resp = some ⟨503,
      .notReady (dispatch tok hdr o req st).state.isRestarting
        (dispatch tok hdr o req st).state.restartAttempts⟩ ∧
    (dispatch tok hdr o req st).restartInvoked =
      (!st.isRestarting && decide (st.restartAttempts < MAX_RESTART_ATTEMPTS)) ∧
    (dispatch tok hdr o req st).state =
      (if !st.isRestarting && decide (st.restartAttempts < MAX_RESTART_ATTEMPTS)
       then { st with isRestarting := true, restartAttempts := st.restartAttempts + 1 }
       else st) ∧
    (dispatch tok hdr o req st).sendCalls = 0 ∧
    (dispatch tok hdr o req st).getChatsCalls = 0 := by
  simp [dispatch, hauth, hvalid, hready]

/-- Counterexample for C5 as stated: not ready, no restart in flight,
but the attempt budget is exhausted, so no restart is triggered even
though none is in flight. -/
theorem claim_C5_cex :
    stDown3.whatsappReady = false ∧ stDown3.isRestarting = false ∧
    (dispatch none none oracleOk reqById stDown3).resp =
      some ⟨503, .notReady false 3⟩ ∧
    (dispatch none none oracleOk reqById stDown3).restartInvoked = false := by
  exact ⟨rfl, rfl, rfl, rfl⟩

/-- Witness for C5 at a not-ready state with budget remaining. -/
theorem claim_C5_witness :
    (dispatch none none oracleOk reqById stDown0).resp =
      some ⟨503, .notReady true 1⟩ ∧
    (dispatch none none oracleOk reqById stDown0).restartInvoked = true ∧
    (dispatch none none oracleOk reqById stDown0).sendCalls = 0 ∧
    (dispatch none none oracleOk reqById stDown0).getChatsCalls = 0 := by
  have h := claim_C5 none none oracleOk reqById stDown0 rfl rfl rfl
  exact ⟨h.1, h.2.1, h.2.2.2.1, h.2.2.2.2⟩

/-- C6: at most one restart is in flight in every reachable state;
restart returns without effect when the restarting flag is set; and the
manual restart endpoint invoked mid-restart answers already-in-progress
without touching the attempt counter or constructing a client. -/
theorem claim_C6 :
    (∀ s, Reach s → s.active ≤ 1) ∧
    (∀ s, s.restarting = true → restartBegin s = s) ∧
    (∀ (tok hdr : Option String) (s : SysState),
      authFails tok hdr = false → s.restarting = true →
      restartEndpoint tok hdr s = (s, .alreadyInProgress)) := by
  refine ⟨?_, ?_, ?_⟩
  · intro s h
    have hi := active_inv h
    split at hi <;> omega
  · intro s h
    simp [restartBegin, h]
  · intro tok hdr s hauth h
    simp [restartEndpoint, hauth, h]

/-- Witness for C6 at the initial state and an in-flight state. -/
theorem claim_C6_witness :
    initState.active ≤ 1 ∧
    restartBegin inflightState = inflightState ∧
    restartEndpoint none none inflightState = (inflightState, .alreadyInProgress) := by
  exact ⟨claim_C6.1 initState Reach.init, claim_C6.2.1 inflightState rfl,
    claim_C6.2.2 none none inflightState rfl rfl⟩

/-- Any success body produced by a `try` block at attempt `a` has HTTP
status 200 and reports `attempts = a`. -/
theorem runAttempt_success_attempts (o : ClientOracle) (gn gid : Option String)
    (a : Nat) (r : HttpResponse) (logged : Option (List String))
    (h : (runAttempt o gn gid a).res = .respond r logged) :
    ∀ g n k, r.body = .success g n k → r.status = 200 ∧ k = a := by
  unfold runAttempt at h
  repeat' split at h
  all_goals simp at h
  all_goals (rcases h with ⟨h1, h2⟩; subst h1; intro g n k hk)
  all_goals simp_all

/-- C7: the delivery loop makes at most MAX_SEND_RETRIES attempts (for
every request, on either resolution path); when both attempts fail
transiently it returns SendFailed 500 carrying attempts = 2 after one
fixed 1-unit wait; and when attempt 1 fails transiently and attempt 2
responds, that response is returned after one wait, any success body it
carries having status 200 and attempts = 2. -/
theorem claim_C7 :
    (∀ (tok hdr : Option String) (o : ClientOracle) (req : SendReq) (st : SrvState),
      (dispatch tok hdr o req st).sendCalls ≤ MAX_SEND_RETRIES ∧
      (dispatch tok hdr o req st).getChatsCalls ≤ MAX_SEND_RETRIES) ∧
    (∀ (tok hdr : Option String) (o : ClientOracle) (req : SendReq) (st : SrvState)
      (e1 e2 : String),
      authFails tok hdr = false → validOk req = true → st.whatsappReady = true →
      (runAttempt o req.groupName req.groupId 1).res = .threw e1 →
      isBrowserError e1 = false →
      (runAttempt o req.groupName req.groupId 2).res = .threw e2 →
      isBrowserError e2 = false →
      (dispatch tok hdr o req st).resp = some ⟨500, .sendFailed 2⟩ ∧
      (dispatch tok hdr o req st).waits = 1) ∧
    (∀ (tok hdr : Option String) (o : ClientOracle) (req : SendReq) (st : SrvState)
      (e1 : String) (r : HttpResponse) (logged : Option (List String)),
      authFails tok hdr = false → validOk req = true → st.whatsappReady = true →
      (runAttempt o req.groupName req.groupId 1).res = .threw e1 →
      isBrowserError e1 = false →
      (runAttempt o req.groupName req.groupId 2).res = .respond r logged →
      (dispatch tok hdr o req st).resp = some r ∧
      (dispatch tok hdr o req st).waits = 1 ∧
      (∀ g n k, r.body = .success g n k → r.status = 200 ∧ k = 2)) := by
  refine ⟨?_, ?_, ?_⟩
  · intro tok hdr o req st
    by_cases h1 : authFails tok hdr = true
    · simp [dispatch, h1, MAX_SEND_RETRIES]
    · by_cases h2 : validOk req = true
      · by_cases h3 : st.whatsappReady = true
        · have hb := sendLoop_calls_le o req.groupName req.groupId st MAX_SEND_RETRIES 0
            { resp := none, state := st, restartInvoked := false, restartScheduled := 0,
              getChatsCalls := 0, sendCalls := 0, sendTargets := [], waits := 0,
              loggedGroups := none }
          constructor
          · simpa [dispatch, h1, h2, h3] using hb.1
          · simpa [dispatch, h1, h2, h3] using hb.2
        · simp [dispatch, h1, h2, h3, MAX_SEND_RETRIES]
      · simp [dispatch, h1, h2, MAX_SEND_RETRIES]
  · intro tok hdr o req st e1 e2 hauth hvalid hready h1 hbe1 h2 hbe2
    simp [dispatch, sendLoop, hauth, hvalid, hready, h1, hbe1, h2, hbe2,
      MAX_SEND_RETRIES]
  · intro tok hdr o req st e1 r logged hauth hvalid hready h1 hbe1 h2
    refine ⟨?_, ?_, runAttempt_success_attempts o req.groupName req.groupId 2 r logged h2⟩
    · simp [dispatch, sendLoop, hauth, hvalid, hready, h1, hbe1, h2,
        MAX_SEND_RETRIES]
    · simp [dispatch, sendLoop, hauth, hvalid, hready, h1, hbe1, h2,
        MAX_SEND_RETRIES]

/-- Witness for C7: flaky oracle failing transiently once, then
succeeding; the call reports attempts = 2 after one wait. -/
theorem claim_C7_witness :
    (dispatch none none oracleFlaky reqById stReady).sendCalls ≤ MAX_SEND_RETRIES ∧
    (dispatch none none oracleFlaky reqById stReady).resp =
      some ⟨200, .success "X@g.us" "Unknown" 2⟩ ∧
    (dispatch none none oracleFlaky reqById stReady).waits = 1 := by
  have ha := claim_C7.1 none none oracleFlaky reqById stReady
  have hc := claim_C7.2.2 none none oracleFlaky reqById stReady "ECONNRESET"
    ⟨200, .success "X@g.us" "Unknown" 2⟩ none rfl rfl rfl rfl (by decide) rfl
  exact ⟨ha.1, hc.1, hc.2.1⟩

/-- C8 (amended): every ready event sets ready to true and resets
restartAttempts to 0; whenever the stored pairing-artifact file actually
exists (in particular after a successful artifact write) it also
discards the stored path and removes the file; and it never stores a
path of its own.  The unconditional path discard fails when a caught
artifact-write error left the path stored without a file (see the
counterexample). -/
theorem claim_C8 (s : SysState) :
    (step s .ready).ready = true ∧
    (step s .ready).restartAttempts = 0 ∧
    (s.qrPath = true → s.qrFile = true →
      (step s .ready).qrPath = false ∧ (step s .ready).qrFile = false) ∧
    (s.qrPath = false → (step s .ready).qrPath = false) := by
  by_cases hp : s.qrPath = true <;> by_cases hf : s.qrFile = true <;>
    simp [step, hp, hf]

/-- Counterexample for C8 as stated: a caught artifact-write failure
(`qrcode.toFile` throwing after `qrCodePath` was assigned) reaches a
state with a stored path and no file; the ready handler's
existence-guarded cleanup then leaves the stale path stored instead of
discarding it. -/
theorem claim_C8_cex :
    Reach (step initState (.qr false)) ∧
    (step initState (.qr false)).qrPath = true ∧
    (step initState (.qr false)).qrFile = false ∧
    (step (step initState (.qr false)) .ready).ready = true ∧
    (step (step initState (.qr false)) .ready).qrPath = true := by
  exact ⟨Reach.next (Ev.qr false) Reach.init, rfl, rfl, rfl, rfl⟩

/-- Witness for C8 at the state holding a successfully written pairing
artifact. -/
theorem claim_C8_witness :
    (step (step initState (.qr true)) .ready).ready = true ∧
    (step (step initState (.qr true)) .ready).restartAttempts = 0 ∧
    (step (step initState (.qr true)) .ready).qrPath = false ∧
    (step (step initState (.qr true)) .ready).qrFile = false := by
  have h := claim_C8 (step initState (.qr true))
  exact ⟨h.1, h.2.1, (h.2.2.1 rfl rfl).1, (h.2.2.1 rfl rfl).2⟩

/-- C9: with a target id present, dispatch never calls chat listing,
sends only to the given id, and reports the supplied (or defaulted)
target name purely for reporting. -/
theorem claim_C9 (tok hdr : Option String) (o : ClientOracle) (req : SendReq)
    (st : SrvState) (hgid : truthy req.groupId = true) :
    (dispatch tok hdr o req st).getChatsCalls = 0 ∧
    (∀ t, t ∈ (dispatch tok hdr o req st).sendTargets → t = req.groupId.getD "") ∧
    (∀ g n k, (dispatch tok hdr o req st).resp = some ⟨200, .success g n k⟩ →
      g = req.groupId.getD "" ∧
      n = (if truthy req.groupName then req.groupName.getD "" else "Unknown")) := by
  by_cases h1 : authFails tok hdr = true
  · simp [dispatch, h1]
  · by_cases h2 : validOk req = true
    · by_cases h3 : st.whatsappReady = true
      · have hloop := sendLoop_gid o req.groupName req.groupId st hgid MAX_SEND_RETRIES 0
          { resp := none, state := st, restartInvoked := false, restartScheduled := 0,
            getChatsCalls := 0, sendCalls := 0, sendTargets := [], waits := 0,
            loggedGroups := none }
        refine ⟨?_, ?_, ?_⟩
        · simpa [dispatch, h1, h2, h3] using hloop.1
        · intro t ht
          have ht2 : t ∈ (sendLoop o req.groupName req.groupId st MAX_SEND_RETRIES 0
              { resp := none, state := st, restartInvoked := false, restartScheduled := 0,
                getChatsCalls := 0, sendCalls := 0, sendTargets := [], waits := 0,
                loggedGroups := none }).sendTargets := by
            simpa [dispatch, h1, h2, h3] using ht
          rcases hloop.2.1 t ht2 with h | h
          · simp at h
          · exact h
        · intro g n k hk
          have hk2 : (sendLoop o req.groupName req.groupId st MAX_SEND_RETRIES 0
              { resp := none, state := st, restartInvoked := false, restartScheduled := 0,
                getChatsCalls := 0, sendCalls := 0, sendTargets := [], waits := 0,
                loggedGroups := none }).resp = some ⟨200, .success g n k⟩ := by
            simpa [dispatch, h1, h2, h3] using hk
          rcases hloop.2.2 g n k hk2 with h | h
          · simp at h
          · exact h
      · simp [dispatch, h1, h2, h3]
    · simp [dispatch, h1, h2]

/-- Witness for C9 at a by-id request. -/
theorem claim_C9_witness :
    (dispatch none none oracleOk reqById stReady).getChatsCalls = 0 ∧
    ("X@g.us" ∈ (dispatch none none oracleOk reqById stReady).sendTargets →
      "X@g.us" = reqById.groupId.getD "") := by
  have h := claim_C9 none none oracleOk reqById stReady rfl
  exact ⟨h.1, h.2.1 "X@g.us"⟩

/-- C10: a dispatch call on a not-ready, not-restarting state below the
attempt maximum reports isRestarting = true and restartAttempts one more
than at entry, because the fire-and-forget restart runs its synchronous
prefix before the response body is built. -/
theorem claim_C10 (tok hdr : Option String) (o : ClientOracle) (req : SendReq)
    (st : SrvState)
    (hauth : authFails tok hdr = false) (hvalid : validOk req = true)
    (hready : st.whatsappReady = false) (hrest : st.isRestarting = false)
    (hatt : st.restartAttempts < MAX_RESTART_ATTEMPTS) :
    (dispatch tok hdr o req st).resp =
      some ⟨503, .notReady true (st.restartAttempts + 1)⟩ ∧
    (dispatch tok hdr o req st).state.isRestarting = true ∧
    (dispatch tok hdr o req st).state.restartAttempts = st.restartAttempts + 1 ∧
    (dispatch tok hdr o req st).restartInvoked = true := by
  simp [dispatch, hauth, hvalid, hready, hrest, hatt]

/-- Witness for C10 at a fresh not-ready state. -/
theorem claim_C10_witness :
    (dispatch none none oracleDown reqById stDown0).resp =
      some ⟨503, .notReady true 1⟩ ∧
    (dispatch none none oracleDown reqById stDown0).state.isRestarting = true ∧
    (dispatch none none oracleDown reqById stDown0).restartInvoked = true := by
  have h := claim_C10 none none oracleDown reqById stDown0 rfl rfl rfl rfl
    (by decide)
  exact ⟨h.1, h.2.1, h.2.2.2⟩

end WaServer
